import Mathlib

/-!
Verification of the sequential tool-calling orchestration engine of
`backend/ai_generator.py` (classes `ToolExecutionRound`,
`SequentialToolTracker`, `AIGenerator`).

Shallow embedding conventions:
* The model capability (`self.client.messages.create`) is an external
  collaborator; it is modelled as an oracle indexed by the number of model
  calls issued so far in the current `generate_response` invocation.  An
  oracle answer `Except.error e` models the API call raising an exception
  with message `e`.
* The tool-manager capability (`tool_manager.execute_tool`) is modelled as a
  function returning `Except String String`; `Except.error e` models the
  Python call raising an exception with `str(e) = e`.
* Python dictionaries that are built with a fixed key set become structures;
  a key that is present only on some paths (the `is_error` key of a tool
  result) becomes an `Option` field, `none` meaning the key is absent.
* `response.content[0].text` is a partial access in Python (it raises
  `IndexError` on empty content and `AttributeError` when the first block is
  a tool-use block); it is embedded as `firstText`, returning `Except`.
* Every model call issued by the code is recorded in a call log (`ApiCall`),
  and every tool-manager invocation corresponds exactly to one entry of the
  `tool_calls` list of the round recorded for it (the source appends the
  entry to `tool_calls` and then performs the invocation, one per
  `tool_use` block), so tool-invocation counts are read off the tracker.
-/

namespace AIGen

/-- A `tool_use` content block of a model response: the Python code reads
`content_block.name`, `content_block.input` and `content_block.id`.
Tool inputs are an opaque mapping; we embed them as association lists. -/
structure ToolUse where
  name : String
  input : List (String × String)
  id : String
deriving Repr, DecidableEq

/-- A typed content block of a model response: the Python code discriminates
on `content_block.type == "tool_use"`, and reads `.text` on text blocks. -/
inductive ContentBlock where
  | text (s : String)
  | tool_use (u : ToolUse)
deriving Repr, DecidableEq

/-- A model response: the code reads `response.stop_reason` and
`response.content`. -/
structure ModelResponse where
  stop_reason : String
  content : List ContentBlock
deriving Repr, DecidableEq

/-- An entry of `ToolExecutionRound.tool_calls`: the dict
`{"name": ..., "input": ..., "id": ...}` built in `_execute_tool_round`. -/
structure ToolCall where
  name : String
  input : List (String × String)
  id : String
deriving Repr, DecidableEq

/-- An entry of `ToolExecutionRound.tool_results`: the dict
`{"type": "tool_result", "tool_use_id": ..., "content": ...}` built in
`_execute_tool_round`.  The `is_error` key is present only on the failure
path, hence the `Option Bool` field (`none` = key absent). -/
structure ToolResult where
  type : String
  tool_use_id : String
  content : String
  is_error : Option Bool
deriving Repr, DecidableEq

/-- The `ToolExecutionRound` dataclass. -/
structure ToolExecutionRound where
  round_number : Nat
  tool_calls : List ToolCall
  tool_results : List ToolResult
  ai_response : Option String := none
  error : Option String := none
deriving Repr, DecidableEq

/-- The `SequentialToolTracker` class state. -/
structure SequentialToolTracker where
  max_rounds : Nat
  rounds : List ToolExecutionRound
  current_round : Nat
deriving Repr, DecidableEq

/-- `SequentialToolTracker.__init__`: `rounds = []`, `current_round = 0`. -/
def SequentialToolTracker.init (max_rounds : Nat) : SequentialToolTracker :=
  { max_rounds := max_rounds, rounds := [], current_round := 0 }

/-- `SequentialToolTracker.can_continue`:
`return self.current_round < self.max_rounds`. -/
def SequentialToolTracker.can_continue (t : SequentialToolTracker) : Bool :=
  t.current_round < t.max_rounds

/-- `SequentialToolTracker.add_round`: appends the round and increments the
counter. -/
def SequentialToolTracker.add_round (t : SequentialToolTracker)
    (round_data : ToolExecutionRound) : SequentialToolTracker :=
  { t with rounds := t.rounds ++ [round_data],
           current_round := t.current_round + 1 }

/-- `SequentialToolTracker.get_total_tool_calls`:
`sum(len(round.tool_calls) for round in self.rounds)`. -/
def SequentialToolTracker.get_total_tool_calls (t : SequentialToolTracker) : Nat :=
  (t.rounds.map (fun r => r.tool_calls.length)).sum

/-- Tracker states reachable under the advisory-capacity protocol of the
spec (`add_round` is invoked only when `can_continue()` holds; both call
sites of `add_round` in `_handle_tool_execution` occur under that guard:
the first under the loop condition, the second under the
`if tracker.can_continue()` test dominating the in-loop model call). -/
inductive TrackerReachable : SequentialToolTracker → Prop where
  | init (m : Nat) : TrackerReachable (SequentialToolTracker.init m)
  | step (t : SequentialToolTracker) (r : ToolExecutionRound) :
      TrackerReachable t → t.can_continue = true →
      TrackerReachable (t.add_round r)

/-- A turn's content in the `messages` list: the initial user query is a
plain string, an assistant turn carries the raw `response.content`, and a
tool-result user turn carries a list of tool-result dicts. -/
inductive MessageContent where
  | text (s : String)
  | blocks (bs : List ContentBlock)
  | toolResults (rs : List ToolResult)
deriving Repr, DecidableEq

/-- One entry of the `messages` list: `{"role": ..., "content": ...}`. -/
structure Message where
  role : String
  content : MessageContent
deriving Repr, DecidableEq

/-- One model call issued via `self.client.messages.create`, as observed at
the API boundary: whether a (truthy) tool set was advertised, the system
string, and the messages passed. -/
structure ApiCall where
  withTools : Bool
  system : String
  messages : List Message
deriving Repr, DecidableEq

/-- The model capability: the response to the n-th model call of the current
`generate_response` invocation (0-based).  `Except.error e` models the call
raising an exception. -/
abbrev Oracle : Type := Nat → Except String ModelResponse

/-- The tool-manager capability `execute_tool(name, **input)`.
`Except.error e` models the call raising an exception with `str(e) = e`. -/
abbrev ToolManager : Type := String → List (String × String) → Except String String

/-- Python truthiness of the `tools` argument (`if tools:`): `None` and the
empty list are falsy. -/
def toolsTruthy : Option (List String) → Bool
  | some (_ :: _) => true
  | _ => false

/-- The static `AIGenerator.SYSTEM_PROMPT` string. -/
def SYSTEM_PROMPT : String :=
  " You are an AI assistant specialized in course materials and educational content with access to comprehensive search tools for course information.

Available Tools:
- **search_course_content**: For searching specific course content and educational materials
- **get_course_outline**: For retrieving course structure (title, instructor, course link, and complete lesson list)

Tool Usage Guidelines:
- **Sequential tool usage**: You can make up to 2 rounds of tool calls per user query
- **Round 1**: Make initial tool calls to gather information
- **Round 2**: Make additional tool calls if needed based on initial results to refine or expand search
- **Content questions**: Use search_course_content for questions about specific topics, concepts, or detailed course materials
- **Outline questions**: Use get_course_outline for questions about course structure, lesson lists, or course overview
- **Multi-step queries**: Use first round for broad search, second round for specific follow-up searches
- **Comparison queries**: First search for one item, then search for another to compare
- Synthesize all tool results into accurate, fact-based responses
- If tools yield no results, state this clearly without offering alternatives

Response Protocol:
- **General knowledge questions**: Answer using existing knowledge without searching
- **Course-specific questions**: Use appropriate tools, then answer
- **Complex queries**: Use sequential tool calls to gather comprehensive information
- **Outline requests**: Always include course title, course link, and complete lesson breakdown with numbers and titles
- **No meta-commentary**:
 - Provide direct answers only — no reasoning process, search explanations, or question-type analysis
 - Do not mention \"based on the search results\" or \"using the tool\"

All responses must be:
1. **Brief, Concise and focused** - Get to the point quickly
2. **Educational** - Maintain instructional value
3. **Clear** - Use accessible language
4. **Example-supported** - Include relevant examples when they aid understanding
Provide only the direct answer to what was asked.
"

/-- The system-content construction at the top of `generate_response`
(`if conversation_history:` is Python truthiness, so an empty string also
selects the bare prompt). -/
def buildSystem (conversation_history : Option String) : String :=
  match conversation_history with
  | some h => if h = "" then SYSTEM_PROMPT
              else SYSTEM_PROMPT ++ "\n\nPrevious conversation:\n" ++ h
  | none => SYSTEM_PROMPT

/-- The Python expression `response.content[0].text`: raises `IndexError`
on empty content and `AttributeError` when the first block is a tool-use
block (the SDK block object has no `text` attribute). -/
def firstText (r : ModelResponse) : Except String String :=
  match r.content with
  | ContentBlock.text t :: _ => Except.ok t
  | ContentBlock.tool_use _ :: _ =>
      Except.error "AttributeError: ToolUseBlock object has no attribute text"
  | [] => Except.error "IndexError: list index out of range"

/-- The per-block body of the `for content_block in response.content` loop of
`_execute_tool_round`, producing the `tool_calls` and `tool_results` lists in
emission order.  Non-`tool_use` blocks are skipped; for a `tool_use` block
the call record is appended and the tool manager is invoked, a raised
exception being converted to an error-flagged result. -/
def runBlocks (tm : ToolManager) : List ContentBlock → List ToolCall × List ToolResult
  | [] => ([], [])
  | ContentBlock.text _ :: rest => runBlocks tm rest
  | ContentBlock.tool_use u :: rest =>
      let (cs, rs) := runBlocks tm rest
      match tm u.name u.input with
      | Except.ok s =>
          ({ name := u.name, input := u.input, id := u.id } :: cs,
           { type := "tool_result", tool_use_id := u.id, content := s,
             is_error := none } :: rs)
      | Except.error e =>
          ({ name := u.name, input := u.input, id := u.id } :: cs,
           { type := "tool_result", tool_use_id := u.id,
             content := "Tool execution error: " ++ e,
             is_error := some true } :: rs)

/-- `AIGenerator._execute_tool_round`. -/
def execute_tool_round (tm : ToolManager) (response : ModelResponse)
    (round_number : Nat) : ToolExecutionRound :=
  let (tool_calls, tool_results) := runBlocks tm response.content
  { round_number := round_number, tool_calls := tool_calls,
    tool_results := tool_results }

/-- The `tool_use` blocks of a content list, in emission order (the
requests the Tool Round Executor must answer). -/
def toolUses : List ContentBlock → List ToolUse
  | [] => []
  | ContentBlock.text _ :: rest => toolUses rest
  | ContentBlock.tool_use u :: rest => u :: toolUses rest

/-- The `tool_calls` record built for one `tool_use` block. -/
def mkCall (u : ToolUse) : ToolCall :=
  { name := u.name, input := u.input, id := u.id }

/-- The `tool_results` entry produced for one `tool_use` block. -/
def resultFor (tm : ToolManager) (u : ToolUse) : ToolResult :=
  match tm u.name u.input with
  | Except.ok s =>
      { type := "tool_result", tool_use_id := u.id, content := s,
        is_error := none }
  | Except.error e =>
      { type := "tool_result", tool_use_id := u.id,
        content := "Tool execution error: " ++ e, is_error := some true }

/-- The message-history update of one loop iteration of
`_handle_tool_execution`: append the assistant's raw response, then the
round's tool results as a user turn, the latter only when
`round_result.tool_results` is truthy (non-empty). -/
def roundMessages (messages : List Message) (cur : ModelResponse)
    (r : ToolExecutionRound) : List Message :=
  let m1 := messages ++ [{ role := "assistant", content := MessageContent.blocks cur.content }]
  if r.tool_results.isEmpty then m1
  else m1 ++ [{ role := "user", content := MessageContent.toolResults r.tool_results }]

/-- The mutable locals of `_handle_tool_execution` threaded through the
round loop, plus the call-boundary instrumentation (`callIdx` is the index
of the next model call; `callLog` records the calls issued so far). -/
structure HandleState where
  tracker : SequentialToolTracker
  messages : List Message
  callIdx : Nat
  callLog : List ApiCall
deriving Repr

/-- The `while tracker.can_continue() and current_response.stop_reason ==
"tool_use"` loop of `_handle_tool_execution`, fuel-indexed.  Each iteration
records at least one round, so the loop runs at most `max_rounds` times;
the function is always applied with `fuel = max_rounds - current_round`
(so the fuel-0 base, which exits with the current response, coincides with
the loop guard being false there).  The result's second component is the
Python variable `current_response` after the loop: `none` models the
`current_response = None` cap break.  A model-call exception inside the
`try` block is caught by the `except` clause, which records an error round
and breaks with `current_response` unchanged. -/
def toolRoundLoop (oracle : Oracle) (tm : ToolManager)
    (tools : Option (List String)) (system : String) :
    Nat → HandleState → ModelResponse → HandleState × Option ModelResponse
  | 0, st, cur => (st, some cur)
  | fuel + 1, st, cur =>
    if st.tracker.can_continue = true ∧ cur.stop_reason = "tool_use" then
      let round := execute_tool_round tm cur (st.tracker.current_round + 1)
      let tracker1 := st.tracker.add_round round
      let messages1 := roundMessages st.messages cur round
      if tracker1.can_continue = true then
        let call : ApiCall :=
          { withTools := toolsTruthy tools, system := system, messages := messages1 }
        let st1 : HandleState :=
          { tracker := tracker1, messages := messages1,
            callIdx := st.callIdx + 1, callLog := st.callLog ++ [call] }
        match oracle st.callIdx with
        | Except.ok next => toolRoundLoop oracle tm tools system fuel st1 next
        | Except.error e =>
            let error_round : ToolExecutionRound :=
              { round_number := tracker1.current_round + 1, tool_calls := [],
                tool_results := [], error := some e }
            ({ st1 with tracker := tracker1.add_round error_round }, some cur)
      else
        ({ st with tracker := tracker1, messages := messages1 }, none)
    else (st, some cur)

/-- `AIGenerator._get_final_response`: one model call with the accumulated
messages and the same system content, without tools.  An exception from the
model call propagates (the call is outside any `try`), as does the partial
access `final_response.content[0].text`. -/
def get_final_response (oracle : Oracle) (system : String)
    (st : HandleState) : Except String String × HandleState :=
  let call : ApiCall := { withTools := false, system := system, messages := st.messages }
  let st1 : HandleState :=
    { st with callIdx := st.callIdx + 1, callLog := st.callLog ++ [call] }
  match oracle st.callIdx with
  | Except.error e => (Except.error e, st1)
  | Except.ok r => (firstText r, st1)

/-- The observable outcome of one `generate_response` invocation: the
returned string or the propagated exception, the log of model calls issued,
and the tracker (`none` when `_handle_tool_execution` was never entered). -/
structure GenOutcome where
  result : Except String String
  callLog : List ApiCall
  tracker : Option SequentialToolTracker
deriving Repr

/-- Total number of tool-manager invocations performed, read off the
tracker: the source performs exactly one invocation per `tool_calls` entry
of each recorded round (entry appended, then invocation, per `tool_use`
block), and the error round recorded by the `except` clause has an empty
`tool_calls` list and performs no invocation. -/
def GenOutcome.totalToolCalls (o : GenOutcome) : Nat :=
  match o.tracker with
  | none => 0
  | some t => t.get_total_tool_calls

/-- `AIGenerator._handle_tool_execution`. -/
def handle_tool_execution (oracle : Oracle) (tm : ToolManager)
    (tools : Option (List String)) (system : String) (max_rounds : Nat)
    (initial_response : ModelResponse) (messages0 : List Message)
    (log0 : List ApiCall) : GenOutcome :=
  let tracker := SequentialToolTracker.init max_rounds
  let st0 : HandleState :=
    { tracker := tracker, messages := messages0, callIdx := 1, callLog := log0 }
  let (st1, curOpt) := toolRoundLoop oracle tm tools system max_rounds st0 initial_response
  match curOpt with
  | some cur =>
      if cur.stop_reason ≠ "tool_use" then
        { result := firstText cur, callLog := st1.callLog, tracker := some st1.tracker }
      else
        let (res, st2) := get_final_response oracle system st1
        { result := res, callLog := st2.callLog, tracker := some st2.tracker }
  | none =>
      let (res, st2) := get_final_response oracle system st1
      { result := res, callLog := st2.callLog, tracker := some st2.tracker }

/-- `AIGenerator.generate_response`.  The branch condition is exactly
`response.stop_reason == "tool_use" and tool_manager` (note: it does not
consult `tools`). -/
def generate_response (oracle : Oracle) (query : String)
    (conversation_history : Option String) (tools : Option (List String))
    (tool_manager : Option ToolManager) (max_tool_rounds : Nat) : GenOutcome :=
  let system := buildSystem conversation_history
  let messages : List Message := [{ role := "user", content := MessageContent.text query }]
  let call0 : ApiCall :=
    { withTools := toolsTruthy tools, system := system, messages := messages }
  match oracle 0 with
  | Except.error e => { result := Except.error e, callLog := [call0], tracker := none }
  | Except.ok response =>
    match tool_manager with
    | some tm =>
        if response.stop_reason = "tool_use" then
          handle_tool_execution oracle tm tools system max_tool_rounds
            response messages [call0]
        else
          { result := firstText response, callLog := [call0], tracker := none }
    | none =>
        { result := firstText response, callLog := [call0], tracker := none }

/-! Concrete environments used to evaluate the embedding on closed inputs. -/

/-- A tool manager that always succeeds. -/
def tmOk : ToolManager := fun _ _ => Except.ok "RESULT"

/-- A tool manager that fails on `get_course_outline` and succeeds otherwise. -/
def tmSel : ToolManager := fun name _ =>
  if name = "get_course_outline" then Except.error "db down" else Except.ok "found"

/-- A sample search tool-use request block. -/
def uSearch : ToolUse :=
  { name := "search_course_content", input := [("query", "x")], id := "toolu_1" }

/-- A sample outline tool-use request block. -/
def uOutline : ToolUse :=
  { name := "get_course_outline", input := [("course", "X")], id := "toolu_2" }

/-- A model response requesting one tool use (and carrying no text block). -/
def respTU : ModelResponse :=
  { stop_reason := "tool_use", content := [ContentBlock.tool_use uSearch] }

/-- A model response with a preamble text block and two tool-use requests. -/
def respTU2 : ModelResponse :=
  { stop_reason := "tool_use",
    content := [ContentBlock.text "Looking this up.",
                ContentBlock.tool_use uOutline, ContentBlock.tool_use uSearch] }

/-- A terminal model response. -/
def respEnd : ModelResponse :=
  { stop_reason := "end_turn", content := [ContentBlock.text "final answer"] }

/-- An oracle that always requests tool use. -/
def oraTU : Oracle := fun _ => Except.ok respTU

/-- An oracle whose first response requests tool use and whose later
responses are terminal. -/
def oraMixed : Oracle := fun i =>
  if i = 0 then Except.ok respTU else Except.ok respEnd

/-- An oracle whose first response requests tool use, whose second call
raises, and whose later responses are terminal. -/
def oraErr1 : Oracle := fun i =>
  if i = 0 then Except.ok respTU
  else if i = 1 then Except.error "boom" else Except.ok respEnd

/-- An oracle that always answers terminally. -/
def oraEnd : Oracle := fun _ => Except.ok respEnd

/-- A tool-use-requesting response whose first content block is text. -/
def respTUtext : ModelResponse :=
  { stop_reason := "tool_use",
    content := [ContentBlock.text "raw preamble", ContentBlock.tool_use uSearch] }

/-- An oracle that always answers with `respTUtext`. -/
def oraTUtext : Oracle := fun _ => Except.ok respTUtext

/-- An empty round record. -/
def sampleRound : ToolExecutionRound :=
  { round_number := 1, tool_calls := [], tool_results := [] }

/-- A tracker state after one guarded `add_round` on `init 2`. -/
def trackerW : SequentialToolTracker :=
  (SequentialToolTracker.init 2).add_round sampleRound

/-! Helper lemmas about the Tool Round Executor. -/

/-- Characterization of the block loop of `_execute_tool_round`: it records
one `tool_calls` entry and one `tool_results` entry per `tool_use` block, in
emission order. -/
theorem runBlocks_eq (tm : ToolManager) (l : List ContentBlock) :
    runBlocks tm l = ((toolUses l).map mkCall, (toolUses l).map (resultFor tm)) := by
  induction l with
  | nil => rfl
  | cons b rest ih =>
      cases b with
      | text s => simpa [runBlocks, toolUses] using ih
      | tool_use u =>
          cases h : tm u.name u.input <;>
            simp [runBlocks, toolUses, ih, mkCall, resultFor, h]

/-- Characterization of `_execute_tool_round`. -/
theorem execute_tool_round_eq (tm : ToolManager) (resp : ModelResponse) (n : Nat) :
    execute_tool_round tm resp n
      = { round_number := n,
          tool_calls := (toolUses resp.content).map mkCall,
          tool_results := (toolUses resp.content).map (resultFor tm) } := by
  simp [execute_tool_round, runBlocks_eq]

/-- Every produced tool result answers the request it was built for. -/
theorem resultFor_tool_use_id (tm : ToolManager) (u : ToolUse) :
    (resultFor tm u).tool_use_id = u.id := by
  unfold resultFor
  cases tm u.name u.input <;> rfl

/-- Python truthiness of a non-empty list. -/
theorem isEmpty_false_of_ne_nil {α : Type} {l : List α} (h : l ≠ []) :
    l.isEmpty = false := by
  cases l with
  | nil => exact absurd rfl h
  | cons a t => rfl

/-! Helper lemmas about the round loop and the call boundary. -/

/-- `can_continue` unfolded to its arithmetic meaning (true case). -/
theorem can_continue_true_iff (t : SequentialToolTracker) :
    t.can_continue = true ↔ t.current_round < t.max_rounds := by
  simp [SequentialToolTracker.can_continue]

/-- `can_continue` unfolded to its arithmetic meaning (false case). -/
theorem can_continue_false_iff (t : SequentialToolTracker) :
    t.can_continue = false ↔ ¬ t.current_round < t.max_rounds := by
  simp [SequentialToolTracker.can_continue]

/-- One loop iteration that records its round and successfully issues the
next tool-enabled model call. -/
theorem toolRoundLoop_step_continue (oracle : Oracle) (tm : ToolManager)
    (tools : Option (List String)) (system : String) (f : Nat)
    (st : HandleState) (cur : ModelResponse) (r : ModelResponse)
    (hcc : st.tracker.can_continue = true)
    (hstop : cur.stop_reason = "tool_use")
    (hnotfull : (st.tracker.add_round
        (execute_tool_round tm cur (st.tracker.current_round + 1))).can_continue = true)
    (hor : oracle st.callIdx = Except.ok r) :
    toolRoundLoop oracle tm tools system (f + 1) st cur
      = toolRoundLoop oracle tm tools system f
          { tracker := st.tracker.add_round
              (execute_tool_round tm cur (st.tracker.current_round + 1)),
            messages := roundMessages st.messages cur
              (execute_tool_round tm cur (st.tracker.current_round + 1)),
            callIdx := st.callIdx + 1,
            callLog := st.callLog ++
              [{ withTools := toolsTruthy tools, system := system,
                 messages := roundMessages st.messages cur
                   (execute_tool_round tm cur (st.tracker.current_round + 1)) }] } r := by
  simp only [toolRoundLoop]
  rw [if_pos ⟨hcc, hstop⟩, if_pos hnotfull, hor]

/-- One loop iteration that records its round and then hits the cap: the
loop breaks with `current_response = None`. -/
theorem toolRoundLoop_step_full (oracle : Oracle) (tm : ToolManager)
    (tools : Option (List String)) (system : String) (f : Nat)
    (st : HandleState) (cur : ModelResponse)
    (hcc : st.tracker.can_continue = true)
    (hstop : cur.stop_reason = "tool_use")
    (hfull : (st.tracker.add_round
        (execute_tool_round tm cur (st.tracker.current_round + 1))).can_continue = false) :
    toolRoundLoop oracle tm tools system (f + 1) st cur
      = ({ st with
            tracker := st.tracker.add_round
              (execute_tool_round tm cur (st.tracker.current_round + 1)),
            messages := roundMessages st.messages cur
              (execute_tool_round tm cur (st.tracker.current_round + 1)) }, none) := by
  simp only [toolRoundLoop]
  rw [if_pos ⟨hcc, hstop⟩, if_neg (by simp [hfull])]

/-- One loop iteration whose in-loop model call raises: the `except` clause
records an error round and breaks with `current_response` unchanged. -/
theorem toolRoundLoop_step_error (oracle : Oracle) (tm : ToolManager)
    (tools : Option (List String)) (system : String) (f : Nat)
    (st : HandleState) (cur : ModelResponse) (e : String)
    (hcc : st.tracker.can_continue = true)
    (hstop : cur.stop_reason = "tool_use")
    (hnotfull : (st.tracker.add_round
        (execute_tool_round tm cur (st.tracker.current_round + 1))).can_continue = true)
    (hor : oracle st.callIdx = Except.error e) :
    toolRoundLoop oracle tm tools system (f + 1) st cur
      = ({ tracker := (st.tracker.add_round
              (execute_tool_round tm cur (st.tracker.current_round + 1))).add_round
              { round_number := (st.tracker.add_round
                  (execute_tool_round tm cur (st.tracker.current_round + 1))).current_round + 1,
                tool_calls := [], tool_results := [], error := some e },
            messages := roundMessages st.messages cur
              (execute_tool_round tm cur (st.tracker.current_round + 1)),
            callIdx := st.callIdx + 1,
            callLog := st.callLog ++
              [{ withTools := toolsTruthy tools, system := system,
                 messages := roundMessages st.messages cur
                   (execute_tool_round tm cur (st.tracker.current_round + 1)) }] },
          some cur) := by
  simp only [toolRoundLoop]
  rw [if_pos ⟨hcc, hstop⟩, if_pos hnotfull, hor]

/-- Loop exit when the guard fails. -/
theorem toolRoundLoop_exit (oracle : Oracle) (tm : ToolManager)
    (tools : Option (List String)) (system : String) (f : Nat)
    (st : HandleState) (cur : ModelResponse)
    (h : ¬(st.tracker.can_continue = true ∧ cur.stop_reason = "tool_use")) :
    toolRoundLoop oracle tm tools system (f + 1) st cur = (st, some cur) := by
  simp only [toolRoundLoop]
  rw [if_neg h]

/-- The Final-Answer Fetcher always logs one tools-disabled call carrying
the accumulated history, whatever the oracle answers, and leaves the
tracker untouched. -/
theorem get_final_response_log (oracle : Oracle) (system : String)
    (st : HandleState) :
    ((get_final_response oracle system st).2).callLog
        = st.callLog ++ [{ withTools := false, system := system, messages := st.messages }] ∧
    ((get_final_response oracle system st).2).tracker = st.tracker := by
  unfold get_final_response
  cases oracle st.callIdx <;> exact ⟨rfl, rfl⟩

/-- The Final-Answer Fetcher on a successful model call. -/
theorem get_final_response_ok (oracle : Oracle) (system : String)
    (st : HandleState) (r : ModelResponse)
    (hor : oracle st.callIdx = Except.ok r) :
    get_final_response oracle system st
      = (firstText r,
         { st with callIdx := st.callIdx + 1,
                   callLog := st.callLog ++
                     [{ withTools := false, system := system,
                        messages := st.messages }] }) := by
  unfold get_final_response
  rw [hor]

/-- `generate_response` enters `_handle_tool_execution` exactly when the
first response reports tool use and a tool manager is supplied. -/
theorem generate_enters_handle (oracle : Oracle) (query : String)
    (ch : Option String) (tools : Option (List String)) (tm : ToolManager)
    (mr : Nat) (r0 : ModelResponse)
    (h0 : oracle 0 = Except.ok r0) (hs0 : r0.stop_reason = "tool_use") :
    generate_response oracle query ch tools (some tm) mr
      = handle_tool_execution oracle tm tools (buildSystem ch) mr r0
          [{ role := "user", content := MessageContent.text query }]
          [{ withTools := toolsTruthy tools, system := buildSystem ch,
             messages := [{ role := "user", content := MessageContent.text query }] }] := by
  unfold generate_response
  rw [h0]
  simp [hs0]

/-- `_handle_tool_execution` resolution when the loop breaks with
`current_response = None`: the result comes from the Final-Answer Fetcher. -/
theorem handle_final_of_loop_none (oracle : Oracle) (tm : ToolManager)
    (tools : Option (List String)) (system : String) (mr : Nat)
    (initial_response : ModelResponse) (msgs0 : List Message)
    (log0 : List ApiCall) (st' : HandleState)
    (hloop : toolRoundLoop oracle tm tools system mr
        { tracker := SequentialToolTracker.init mr, messages := msgs0,
          callIdx := 1, callLog := log0 } initial_response = (st', none)) :
    handle_tool_execution oracle tm tools system mr initial_response msgs0 log0
      = { result := (get_final_response oracle system st').1,
          callLog := ((get_final_response oracle system st').2).callLog,
          tracker := some (((get_final_response oracle system st').2).tracker) } := by
  unfold handle_tool_execution
  simp only [hloop]

/-- `_handle_tool_execution` resolution when the loop exits holding a
response that still requests tool use (cap never allowed a round, or the
`except` clause broke out): the result comes from the Final-Answer Fetcher. -/
theorem handle_final_of_loop_tool_use (oracle : Oracle) (tm : ToolManager)
    (tools : Option (List String)) (system : String) (mr : Nat)
    (initial_response : ModelResponse) (msgs0 : List Message)
    (log0 : List ApiCall) (st' : HandleState) (cur : ModelResponse)
    (hstop : cur.stop_reason = "tool_use")
    (hloop : toolRoundLoop oracle tm tools system mr
        { tracker := SequentialToolTracker.init mr, messages := msgs0,
          callIdx := 1, callLog := log0 } initial_response = (st', some cur)) :
    handle_tool_execution oracle tm tools system mr initial_response msgs0 log0
      = { result := (get_final_response oracle system st').1,
          callLog := ((get_final_response oracle system st').2).callLog,
          tracker := some (((get_final_response oracle system st').2).tracker) } := by
  unfold handle_tool_execution
  simp only [hloop]
  rcases hg : get_final_response oracle system st' with ⟨res, st2⟩
  simp [hstop, hg]

/-- If the model keeps requesting tool use, the round loop runs its full
budget: starting with `fuel = max_rounds - current_round` rounds left, it
issues `fuel - 1` further tool-enabled model calls and breaks at the cap
with `current_response = None`. -/
theorem toolRoundLoop_all_tool_use (oracle : Oracle) (tm : ToolManager)
    (tools : Option (List String)) (system : String) :
    ∀ (fuel : Nat) (st : HandleState) (cur : ModelResponse),
      1 ≤ fuel →
      st.tracker.current_round + fuel = st.tracker.max_rounds →
      st.callIdx = st.tracker.current_round + 1 →
      cur.stop_reason = "tool_use" →
      (∀ i, i < st.tracker.max_rounds →
        ∃ r, oracle i = Except.ok r ∧ r.stop_reason = "tool_use") →
      ∃ st' : HandleState,
        toolRoundLoop oracle tm tools system fuel st cur = (st', none) ∧
        st'.callLog.map (fun c => c.withTools)
          = st.callLog.map (fun c => c.withTools)
            ++ List.replicate (fuel - 1) (toolsTruthy tools) ∧
        st'.callIdx = st.callIdx + (fuel - 1) ∧
        st'.tracker.max_rounds = st.tracker.max_rounds := by
  intro fuel
  induction fuel with
  | zero =>
      intro st cur h1
      exact absurd h1 (by omega)
  | succ f ih =>
      intro st cur hfuel hsum hidx hstop horacle
      have hcc : st.tracker.can_continue = true :=
        (can_continue_true_iff st.tracker).mpr (by omega)
      cases f with
      | zero =>
          have hfull : (st.tracker.add_round
              (execute_tool_round tm cur (st.tracker.current_round + 1))).can_continue
                = false := by
            apply (can_continue_false_iff _).mpr
            simp only [SequentialToolTracker.add_round]
            omega
          refine ⟨_, toolRoundLoop_step_full oracle tm tools system 0 st cur hcc hstop hfull,
            ?_, ?_, ?_⟩
          · simp
          · simp
          · simp [SequentialToolTracker.add_round]
      | succ f' =>
          have hnotfull : (st.tracker.add_round
              (execute_tool_round tm cur (st.tracker.current_round + 1))).can_continue
                = true := by
            apply (can_continue_true_iff _).mpr
            simp only [SequentialToolTracker.add_round]
            omega
          obtain ⟨r, hor, hrstop⟩ := horacle st.callIdx (by omega)
          obtain ⟨st'', heq, hmap, hidx'', hmax''⟩ := ih
            { tracker := st.tracker.add_round
                (execute_tool_round tm cur (st.tracker.current_round + 1)),
              messages := roundMessages st.messages cur
                (execute_tool_round tm cur (st.tracker.current_round + 1)),
              callIdx := st.callIdx + 1,
              callLog := st.callLog ++
                [{ withTools := toolsTruthy tools, system := system,
                   messages := roundMessages st.messages cur
                     (execute_tool_round tm cur (st.tracker.current_round + 1)) }] } r
            (by omega)
            (by simp [SequentialToolTracker.add_round]; omega)
            (by simp [SequentialToolTracker.add_round]; omega)
            hrstop
            (by simpa [SequentialToolTracker.add_round] using horacle)
          refine ⟨st'', ?_, ?_, ?_, ?_⟩
          · rw [toolRoundLoop_step_continue oracle tm tools system (f' + 1) st cur r
              hcc hstop hnotfull hor]
            exact heq
          · rw [hmap]
            simp [List.replicate_succ]
          · simp only [hidx'']
            omega
          · rw [hmax'']
            simp [SequentialToolTracker.add_round]

/-- `_handle_tool_execution` outcome when the loop breaks at the cap:
the Final-Answer Fetcher call is appended to the log. -/
theorem handle_result_of_loop_none (oracle : Oracle) (tm : ToolManager)
    (tools : Option (List String)) (system : String) (mr : Nat)
    (initial_response : ModelResponse) (msgs0 : List Message)
    (log0 : List ApiCall) (st' : HandleState)
    (hloop : toolRoundLoop oracle tm tools system mr
        { tracker := SequentialToolTracker.init mr, messages := msgs0,
          callIdx := 1, callLog := log0 } initial_response = (st', none)) :
    handle_tool_execution oracle tm tools system mr initial_response msgs0 log0
      = { result := (get_final_response oracle system st').1,
          callLog := st'.callLog ++
            [{ withTools := false, system := system, messages := st'.messages }],
          tracker := some st'.tracker } := by
  rw [handle_final_of_loop_none oracle tm tools system mr initial_response
    msgs0 log0 st' hloop]
  have h := get_final_response_log oracle system st'
  rw [h.1, h.2]

/-- `_handle_tool_execution` outcome when the loop exits still holding a
tool-use-requesting response and the final tools-disabled call succeeds. -/
theorem handle_result_of_loop_tool_use (oracle : Oracle) (tm : ToolManager)
    (tools : Option (List String)) (system : String) (mr : Nat)
    (initial_response : ModelResponse) (msgs0 : List Message)
    (log0 : List ApiCall) (st' : HandleState) (cur : ModelResponse)
    (r : ModelResponse)
    (hstop : cur.stop_reason = "tool_use")
    (hloop : toolRoundLoop oracle tm tools system mr
        { tracker := SequentialToolTracker.init mr, messages := msgs0,
          callIdx := 1, callLog := log0 } initial_response = (st', some cur))
    (hor : oracle st'.callIdx = Except.ok r) :
    handle_tool_execution oracle tm tools system mr initial_response msgs0 log0
      = { result := firstText r,
          callLog := st'.callLog ++
            [{ withTools := false, system := system, messages := st'.messages }],
          tracker := some st'.tracker } := by
  rw [handle_final_of_loop_tool_use oracle tm tools system mr initial_response
    msgs0 log0 st' cur hstop hloop,
    get_final_response_ok oracle system st' r hor]

/-! Claim theorems. -/

/-- C1: for the Round Tracker, `can_continue()` is true iff
`current_round < max_rounds`; along any sequence of `add_round` calls
performed under the advisory-capacity protocol (each call made only when
`can_continue()` holds, as at both call sites in the orchestrator),
`current_round <= max_rounds` holds and `current_round` equals the number
of recorded rounds. -/
theorem C1_round_tracker_invariant (t : SequentialToolTracker)
    (h : TrackerReachable t) :
    (t.can_continue = true ↔ t.current_round < t.max_rounds) ∧
    t.current_round ≤ t.max_rounds ∧
    t.current_round = t.rounds.length := by
  have hc : ∀ s : SequentialToolTracker,
      s.can_continue = true ↔ s.current_round < s.max_rounds := by
    intro s
    simp [SequentialToolTracker.can_continue]
  refine ⟨hc t, ?_⟩
  induction h with
  | init m => simp [SequentialToolTracker.init]
  | step t r ht hcc ih =>
      obtain ⟨h1, h2⟩ := ih
      have hlt := (hc t).mp hcc
      constructor
      · simp only [SequentialToolTracker.add_round]
        omega
      · simp [SequentialToolTracker.add_round, h2]

/-- C1 witness: the invariant evaluated on `init 2` after one guarded add. -/
theorem C1_round_tracker_invariant_witness :
    (trackerW.can_continue = true ↔ trackerW.current_round < trackerW.max_rounds) ∧
    trackerW.current_round ≤ trackerW.max_rounds ∧
    trackerW.current_round = trackerW.rounds.length :=
  C1_round_tracker_invariant trackerW
    (TrackerReachable.step _ _ (TrackerReachable.init 2) (by decide))

/-- C3: if the tool manager raises on the j-th tool-invocation request of a
round, the Tool Round Executor records for that position a tool result with
`is_error = true` and a human-readable error description; it does not
propagate the exception (the round value is still produced, with no
round-level error), it still answers every request of the round (one result
per request, ids matched in order), and the round's message-history update
appends the assistant response followed by all the results. -/
theorem C3_tool_failure_isolated (tm : ToolManager) (resp : ModelResponse)
    (n j : Nat) (msgs : List Message) (u : ToolUse) (msg : String)
    (hj : (toolUses resp.content)[j]? = some u)
    (hfail : tm u.name u.input = Except.error msg) :
    (execute_tool_round tm resp n).tool_results[j]?
      = some { type := "tool_result", tool_use_id := u.id,
               content := "Tool execution error: " ++ msg, is_error := some true } ∧
    (execute_tool_round tm resp n).tool_results.length
      = (toolUses resp.content).length ∧
    (execute_tool_round tm resp n).tool_results.map (fun x => x.tool_use_id)
      = (toolUses resp.content).map (fun v => v.id) ∧
    (execute_tool_round tm resp n).error = none ∧
    roundMessages msgs resp (execute_tool_round tm resp n)
      = msgs ++ [{ role := "assistant", content := MessageContent.blocks resp.content },
                 { role := "user",
                   content := MessageContent.toolResults
                     ((execute_tool_round tm resp n).tool_results) }] := by
  have hspec := execute_tool_round_eq tm resp n
  have hjlt : j < (toolUses resp.content).length := by
    rcases List.getElem?_eq_some.mp hj with ⟨hlt, _⟩
    exact hlt
  refine ⟨?_, ?_, ?_, ?_, ?_⟩
  · rw [hspec]
    simp only [List.getElem?_map, hj, Option.map_some]
    simp [resultFor, hfail]
  · rw [hspec]
    simp
  · rw [hspec]
    simp only [List.map_map]
    exact List.map_congr_left fun v _ => resultFor_tool_use_id tm v
  · rw [hspec]
  · have hne : ((execute_tool_round tm resp n).tool_results).isEmpty = false := by
      rw [hspec]
      apply isEmpty_false_of_ne_nil
      intro hnil
      simp only [List.map_eq_nil_iff] at hnil
      rw [hnil] at hjlt
      simp at hjlt
    simp [roundMessages, hne]

/-- C3 witness: a round with two requests whose first tool call fails. -/
theorem C3_tool_failure_isolated_witness :
    (execute_tool_round tmSel respTU2 1).tool_results[0]?
      = some { type := "tool_result", tool_use_id := uOutline.id,
               content := "Tool execution error: " ++ "db down", is_error := some true } ∧
    (execute_tool_round tmSel respTU2 1).tool_results.length
      = (toolUses respTU2.content).length ∧
    (execute_tool_round tmSel respTU2 1).tool_results.map (fun x => x.tool_use_id)
      = (toolUses respTU2.content).map (fun v => v.id) ∧
    (execute_tool_round tmSel respTU2 1).error = none ∧
    roundMessages [] respTU2 (execute_tool_round tmSel respTU2 1)
      = [] ++ [{ role := "assistant", content := MessageContent.blocks respTU2.content },
               { role := "user",
                 content := MessageContent.toolResults
                   ((execute_tool_round tmSel respTU2 1).tool_results) }] :=
  C3_tool_failure_isolated tmSel respTU2 1 0 [] uOutline "db down" rfl rfl

/-- C6 counterexample: on a successful tool call the recorded tool result
carries no `is_error` key at all (`none` in the embedding), not
`is_error = false` as the claim states. -/
theorem C6_counterexample :
    (execute_tool_round tmOk respTU 1).tool_results.map (fun r => r.is_error)
      = [none] ∧ (none : Option Bool) ≠ some false := by
  exact ⟨rfl, by decide⟩

/-- C6 (amended): on a successful tool call the executor appends a tool
result with the returned string as content and no `is_error` key (only
failure results carry `is_error`, set to true); results still correspond
1:1 to the round's requests. -/
theorem C6_success_result (tm : ToolManager) (resp : ModelResponse)
    (n j : Nat) (u : ToolUse) (s : String)
    (hj : (toolUses resp.content)[j]? = some u)
    (hok : tm u.name u.input = Except.ok s) :
    (execute_tool_round tm resp n).tool_results[j]?
      = some { type := "tool_result", tool_use_id := u.id, content := s,
               is_error := none } ∧
    (execute_tool_round tm resp n).tool_results.length
      = (toolUses resp.content).length := by
  have hspec := execute_tool_round_eq tm resp n
  constructor
  · rw [hspec]
    simp only [List.getElem?_map, hj, Option.map_some]
    simp [resultFor, hok]
  · rw [hspec]
    simp

/-- C6 amended witness: the successful call of the mixed round. -/
theorem C6_success_result_witness :
    (execute_tool_round tmSel respTU2 1).tool_results[1]?
      = some { type := "tool_result", tool_use_id := uSearch.id, content := "found",
               is_error := none } ∧
    (execute_tool_round tmSel respTU2 1).tool_results.length
      = (toolUses respTU2.content).length :=
  C6_success_result tmSel respTU2 1 1 uSearch "found" rfl rfl

/-- C7: after a round (executed without a round-level error), the message
history is extended with the assistant's raw response followed by one user
turn holding exactly one tool result per tool-invocation request, matched by
call id, in request order. -/
theorem C7_transcript_invariant (tm : ToolManager) (resp : ModelResponse)
    (n : Nat) (msgs : List Message)
    (hne : toolUses resp.content ≠ []) :
    roundMessages msgs resp (execute_tool_round tm resp n)
      = msgs ++ [{ role := "assistant", content := MessageContent.blocks resp.content },
                 { role := "user",
                   content := MessageContent.toolResults
                     ((execute_tool_round tm resp n).tool_results) }] ∧
    (execute_tool_round tm resp n).tool_results.map (fun x => x.tool_use_id)
      = (toolUses resp.content).map (fun v => v.id) ∧
    (execute_tool_round tm resp n).tool_results.length
      = (toolUses resp.content).length := by
  have hspec := execute_tool_round_eq tm resp n
  refine ⟨?_, ?_, ?_⟩
  · have hempty : ((execute_tool_round tm resp n).tool_results).isEmpty = false := by
      rw [hspec]
      apply isEmpty_false_of_ne_nil
      simpa using hne
    simp [roundMessages, hempty]
  · rw [hspec]
    simp only [List.map_map]
    exact List.map_congr_left fun v _ => resultFor_tool_use_id tm v
  · rw [hspec]
    simp

/-- C7 witness: the transcript invariant evaluated on the two-request round. -/
theorem C7_transcript_invariant_witness :
    roundMessages [] respTU2 (execute_tool_round tmOk respTU2 2)
      = [] ++ [{ role := "assistant", content := MessageContent.blocks respTU2.content },
               { role := "user",
                 content := MessageContent.toolResults
                   ((execute_tool_round tmOk respTU2 2).tool_results) }] ∧
    (execute_tool_round tmOk respTU2 2).tool_results.map (fun x => x.tool_use_id)
      = (toolUses respTU2.content).map (fun v => v.id) ∧
    (execute_tool_round tmOk respTU2 2).tool_results.length
      = (toolUses respTU2.content).length :=
  C7_transcript_invariant tmOk respTU2 2 [] (by decide)

/-- C5 counterexample: with `tools` omitted (`none`) but a tool manager
supplied and a model response reporting `stop_reason = "tool_use"`, the
orchestrator does enter the tool-round loop: one round is recorded, the
tool manager is invoked once, and a second model call is issued.  The
branch at the bottom of `generate_response` tests only `stop_reason` and
`tool_manager`, never `tools`. -/
theorem C5_counterexample :
    toolsTruthy none = false ∧
    ((generate_response oraMixed "q" none none (some tmOk) 2).tracker.map
        fun tr => tr.rounds.length) = some 1 ∧
    (generate_response oraMixed "q" none none (some tmOk) 2).totalToolCalls = 1 ∧
    (generate_response oraMixed "q" none none (some tmOk) 2).callLog.length = 2 := by
  refine ⟨rfl, rfl, rfl, rfl⟩

/-- C5 (amended): when no tool manager is supplied the loop is never
entered, regardless of `tools` and of the model's `stop_reason`; when a
tool manager is supplied, the guard does not consult `tools`, so a model
response reporting tool use enters the loop even with `tools` omitted. -/
theorem C5_no_manager_never_loops (oracle : Oracle) (query : String)
    (ch : Option String) (tools : Option (List String)) (mr : Nat) :
    (generate_response oracle query ch tools none mr).tracker = none ∧
    (generate_response oracle query ch tools none mr).callLog.length = 1 := by
  unfold generate_response
  cases h : oracle 0 <;> simp

/-- C8 counterexample: with tools advertised, no tool manager, and a
tool-use-requesting response whose content starts with a tool-use block
(no preamble text), the direct branch evaluates `response.content[0].text`,
which is not defined there: the call errors instead of returning text. -/
theorem C8_counterexample :
    oraTU 0 = Except.ok respTU ∧
    respTU.stop_reason = "tool_use" ∧
    toolsTruthy (some ["search_course_content"]) = true ∧
    (generate_response oraTU "q" none (some ["search_course_content"]) none 2).result
      = Except.error "AttributeError: ToolUseBlock object has no attribute text" := by
  refine ⟨rfl, rfl, rfl, rfl⟩

/-- C8 (amended): with tools advertised, no tool manager, and a model
response requesting tool use, `generate` returns the raw (non-tool-resolved)
text of that response, without error, provided the response's first content
block is a text block; otherwise the text access fails. -/
theorem C8_no_manager_returns_raw_text (oracle : Oracle) (query : String)
    (ch : Option String) (tools : Option (List String)) (mr : Nat)
    (r : ModelResponse) (t : String) (rest : List ContentBlock)
    (htools : toolsTruthy tools = true)
    (h0 : oracle 0 = Except.ok r)
    (hs : r.stop_reason = "tool_use")
    (hc : r.content = ContentBlock.text t :: rest) :
    (generate_response oracle query ch tools none mr).result = Except.ok t ∧
    (generate_response oracle query ch tools none mr).callLog.length = 1 ∧
    (generate_response oracle query ch tools none mr).tracker = none := by
  unfold generate_response
  rw [h0]
  simp [firstText, hc]

/-- C8 amended witness: raw text returned when the first block is text. -/
theorem C8_no_manager_returns_raw_text_witness :
    (generate_response oraTUtext "q" none (some ["search_course_content"]) none 2).result
      = Except.ok "raw preamble" ∧
    (generate_response oraTUtext "q" none (some ["search_course_content"]) none 2).callLog.length = 1 ∧
    (generate_response oraTUtext "q" none (some ["search_course_content"]) none 2).tracker = none :=
  C8_no_manager_returns_raw_text oraTUtext "q" none (some ["search_course_content"]) 2
    respTUtext "raw preamble" [ContentBlock.tool_use uSearch] rfl rfl rfl rfl

/-- C9: if the first model response does not request tool use, `generate`
returns its text verbatim, issues exactly one model call, and invokes no
tool — for any `tools` and `tool_manager` arguments. -/
theorem C9_direct_response (oracle : Oracle) (query : String) (ch : Option String)
    (tools : Option (List String)) (tmgr : Option ToolManager) (mr : Nat)
    (r : ModelResponse) (t : String) (rest : List ContentBlock)
    (h0 : oracle 0 = Except.ok r)
    (hs : r.stop_reason ≠ "tool_use")
    (hc : r.content = ContentBlock.text t :: rest) :
    (generate_response oracle query ch tools tmgr mr).result = Except.ok t ∧
    (generate_response oracle query ch tools tmgr mr).callLog.length = 1 ∧
    (generate_response oracle query ch tools tmgr mr).totalToolCalls = 0 := by
  unfold generate_response
  rw [h0]
  cases tmgr with
  | none => simp [firstText, hc, GenOutcome.totalToolCalls]
  | some tm => simp [hs, firstText, hc, GenOutcome.totalToolCalls]

/-- C9 witness: a terminal first response. -/
theorem C9_direct_response_witness :
    (generate_response oraEnd "q" none (some ["t"]) (some tmOk) 2).result
      = Except.ok "final answer" ∧
    (generate_response oraEnd "q" none (some ["t"]) (some tmOk) 2).callLog.length = 1 ∧
    (generate_response oraEnd "q" none (some ["t"]) (some tmOk) 2).totalToolCalls = 0 :=
  C9_direct_response oraEnd "q" none (some ["t"]) (some tmOk) 2
    respEnd "final answer" [] rfl (by decide) rfl

/-- C10: with `max_tool_rounds = 0`, a supplied tool manager and a
tool-use-requesting first response, the round loop body never runs: no tool
is invoked, no round is recorded, and exactly one further tools-disabled
model call is issued whose message history is just the original user query;
its response's text is returned. -/
theorem C10_zero_round_cap (oracle : Oracle) (query : String) (ch : Option String)
    (tools : Option (List String)) (tm : ToolManager)
    (r0 r1 : ModelResponse) (t : String) (rest : List ContentBlock)
    (h0 : oracle 0 = Except.ok r0)
    (hs0 : r0.stop_reason = "tool_use")
    (h1 : oracle 1 = Except.ok r1)
    (hc1 : r1.content = ContentBlock.text t :: rest) :
    (generate_response oracle query ch tools (some tm) 0).result = Except.ok t ∧
    (generate_response oracle query ch tools (some tm) 0).callLog.length = 2 ∧
    (generate_response oracle query ch tools (some tm) 0).callLog[1]?
      = some { withTools := false, system := buildSystem ch,
               messages := [{ role := "user", content := MessageContent.text query }] } ∧
    ((generate_response oracle query ch tools (some tm) 0).tracker.map
        fun tr => tr.rounds) = some [] ∧
    (generate_response oracle query ch tools (some tm) 0).totalToolCalls = 0 := by
  unfold generate_response
  rw [h0]
  simp [hs0, handle_tool_execution, toolRoundLoop, get_final_response, h1,
    firstText, hc1, GenOutcome.totalToolCalls, SequentialToolTracker.init,
    SequentialToolTracker.get_total_tool_calls]

/-- C10 witness: zero round cap on a tool-use-requesting first response. -/
theorem C10_zero_round_cap_witness :
    (generate_response oraMixed "q" none (some ["t"]) (some tmOk) 0).result
      = Except.ok "final answer" ∧
    (generate_response oraMixed "q" none (some ["t"]) (some tmOk) 0).callLog.length = 2 ∧
    (generate_response oraMixed "q" none (some ["t"]) (some tmOk) 0).callLog[1]?
      = some { withTools := false, system := buildSystem none,
               messages := [{ role := "user", content := MessageContent.text "q" }] } ∧
    ((generate_response oraMixed "q" none (some ["t"]) (some tmOk) 0).tracker.map
        fun tr => tr.rounds) = some [] ∧
    (generate_response oraMixed "q" none (some ["t"]) (some tmOk) 0).totalToolCalls = 0 :=
  C10_zero_round_cap oraMixed "q" none (some ["t"]) tmOk respTU respEnd
    "final answer" [] rfl rfl rfl rfl

/-- C2: with tools advertised, a tool manager supplied, a positive round
cap, and every model response up to the cap requesting tool use, `generate`
issues exactly `max_rounds + 1` model calls: `max_rounds` tool-enabled
calls followed by one final tools-disabled call, and no tool-enabled call
after the cap. -/
theorem C2_full_budget_call_trace (oracle : Oracle) (query : String)
    (ch : Option String) (tools : Option (List String)) (tm : ToolManager)
    (mr : Nat)
    (hmr : 1 ≤ mr)
    (htools : toolsTruthy tools = true)
    (horacle : ∀ i, i < mr →
      ∃ r, oracle i = Except.ok r ∧ r.stop_reason = "tool_use") :
    (generate_response oracle query ch tools (some tm) mr).callLog.length = mr + 1 ∧
    (generate_response oracle query ch tools (some tm) mr).callLog.map
        (fun c => c.withTools)
      = List.replicate mr true ++ [false] := by
  obtain ⟨r0, h0, hs0⟩ := horacle 0 (by omega)
  rw [generate_enters_handle oracle query ch tools tm mr r0 h0 hs0]
  obtain ⟨st', hloop, hmap, hidx, hmax⟩ :=
    toolRoundLoop_all_tool_use oracle tm tools (buildSystem ch) mr
      { tracker := SequentialToolTracker.init mr,
        messages := [{ role := "user", content := MessageContent.text query }],
        callIdx := 1,
        callLog :=
          [{ withTools := toolsTruthy tools, system := buildSystem ch,
             messages := [{ role := "user", content := MessageContent.text query }] }] }
      r0 hmr
      (by dsimp only [SequentialToolTracker.init]; omega)
      (by dsimp only [SequentialToolTracker.init])
      hs0
      (by dsimp only [SequentialToolTracker.init]; exact horacle)
  rw [handle_result_of_loop_none oracle tm tools (buildSystem ch) mr r0 _ _ st' hloop]
  have hmapFin : (st'.callLog ++
      [({ withTools := false, system := buildSystem ch,
          messages := st'.messages } : ApiCall)]).map (fun c => c.withTools)
      = List.replicate mr true ++ [false] := by
    have hmm : mr = (mr - 1) + 1 := by omega
    have hrep : List.replicate mr true = true :: List.replicate (mr - 1) true := by
      conv_lhs => rw [hmm]
      rw [List.replicate_succ]
    rw [List.map_append, hmap, hrep]
    simp [htools]
  constructor
  · have hlen := congrArg List.length hmapFin
    simp only [List.length_map, List.length_append, List.length_replicate] at hlen
    simpa using hlen
  · simpa using hmapFin

/-- C2 witness: one-round budget, model always requesting tool use. -/
theorem C2_full_budget_call_trace_witness :
    (generate_response oraTU "q" none (some ["search_course_content"])
        (some tmOk) 1).callLog.length = 1 + 1 ∧
    (generate_response oraTU "q" none (some ["search_course_content"])
        (some tmOk) 1).callLog.map (fun c => c.withTools)
      = List.replicate 1 true ++ [false] :=
  C2_full_budget_call_trace oraTU "q" none (some ["search_course_content"]) tmOk 1
    (by decide) rfl (fun i _ => ⟨respTU, rfl, rfl⟩)

/-- C4 counterexample: the in-loop model call (inside the `try` block) is
issued and raises `"boom"`, yet `generate` does not propagate the error: the
`except` clause records it, the loop breaks, and the tools-disabled final
call's text is returned. -/
theorem C4_counterexample :
    oraErr1 1 = Except.error "boom" ∧
    (generate_response oraErr1 "q" none (some ["search_course_content"])
        (some tmOk) 2).result = Except.ok "final answer" ∧
    (generate_response oraErr1 "q" none (some ["search_course_content"])
        (some tmOk) 2).callLog.length = 3 := by
  refine ⟨rfl, rfl, rfl⟩

/-- C4 (amended): a failure of the model capability during an in-loop model
call does not propagate: it is caught by the round-level `except` handler,
recorded as an error round (after the successfully executed round), and
`generate` proceeds to the tools-disabled final call whose text it returns.
(Failures of the initial call and of the final call, both outside the
`try` block, do propagate.) -/
theorem C4_in_loop_model_error_recorded (oracle : Oracle) (query : String)
    (ch : Option String) (tools : Option (List String)) (tm : ToolManager)
    (mr : Nat) (r0 r2 : ModelResponse) (e t : String) (rest : List ContentBlock)
    (hmr : 2 ≤ mr)
    (h0 : oracle 0 = Except.ok r0) (hs0 : r0.stop_reason = "tool_use")
    (h1 : oracle 1 = Except.error e)
    (h2 : oracle 2 = Except.ok r2) (hc2 : r2.content = ContentBlock.text t :: rest) :
    (generate_response oracle query ch tools (some tm) mr).result = Except.ok t ∧
    ((generate_response oracle query ch tools (some tm) mr).tracker.map
        fun tr => tr.rounds.map fun rd => rd.error) = some [none, some e] ∧
    (generate_response oracle query ch tools (some tm) mr).callLog.length = 3 := by
  obtain ⟨k, hk⟩ : ∃ k, mr = k + 2 := ⟨mr - 2, by omega⟩
  subst hk
  rw [generate_enters_handle oracle query ch tools tm (k + 2) r0 h0 hs0]
  have hstep := toolRoundLoop_step_error oracle tm tools (buildSystem ch) (k + 1)
    { tracker := SequentialToolTracker.init (k + 2),
      messages := [{ role := "user", content := MessageContent.text query }],
      callIdx := 1,
      callLog :=
        [{ withTools := toolsTruthy tools, system := buildSystem ch,
           messages := [{ role := "user", content := MessageContent.text query }] }] }
    r0 e
    (by rw [can_continue_true_iff]; dsimp only [SequentialToolTracker.init]; omega)
    hs0
    (by rw [can_continue_true_iff]
        dsimp only [SequentialToolTracker.init, SequentialToolTracker.add_round]
        omega)
    h1
  rw [handle_result_of_loop_tool_use oracle tm tools (buildSystem ch) (k + 2) r0
    _ _ _ r0 r2 hs0 hstep h2]
  refine ⟨?_, ?_, ?_⟩
  · simp [firstText, hc2]
  · simp [SequentialToolTracker.init, SequentialToolTracker.add_round,
      execute_tool_round_eq]
  · simp

/-- C4 amended witness: the caught in-loop error on a concrete run. -/
theorem C4_in_loop_model_error_recorded_witness :
    (generate_response oraErr1 "q2" none (some ["search_course_content"])
        (some tmOk) 2).result = Except.ok "final answer" ∧
    ((generate_response oraErr1 "q2" none (some ["search_course_content"])
        (some tmOk) 2).tracker.map
        fun tr => tr.rounds.map fun rd => rd.error) = some [none, some "boom"] ∧
    (generate_response oraErr1 "q2" none (some ["search_course_content"])
        (some tmOk) 2).callLog.length = 3 :=
  C4_in_loop_model_error_recorded oraErr1 "q2" none (some ["search_course_content"])
    tmOk 2 respTU respEnd "boom" "final answer" [] (by decide) rfl rfl rfl rfl rfl

end AIGen
